import Mathlib

/-!
Shallow embedding of the layer compositing and history engine of the
Luma-AI browser image editor (src/types.ts, src/utils/imageUtils.ts and
the main application component).  JavaScript numbers are modelled as
rationals; JavaScript `undefined` for optional fields is `Option.none`;
JavaScript truthiness on strings and numbers is modelled explicitly.
-/

/-- Type `LayerType` from src/types.ts: `'image' | 'text' | 'drawing'`. -/
inductive LayerType where
  | image
  | text
  | drawing
deriving DecidableEq, Repr

/-- Type `Layer` from src/types.ts.  Optional TypeScript fields become `Option`. -/
structure Layer where
  id : String
  type : LayerType
  name : String
  visible : Bool
  locked : Bool
  opacity : ℚ
  x : ℚ
  y : ℚ
  rotation : ℚ
  scale : ℚ
  width : Option ℚ := none
  height : Option ℚ := none
  src : Option String := none
  text : Option String := none
  fontSize : Option ℚ := none
  color : Option String := none
  fontFamily : Option String := none
  fontWeight : Option String := none
deriving DecidableEq, Repr

/-- Model of `Partial<Layer>`: every field may be absent.  A field of the patch that
is itself optional in `Layer` is doubly optional (a present key may carry
`undefined`). -/
structure LayerPatch where
  id : Option String := none
  type : Option LayerType := none
  name : Option String := none
  visible : Option Bool := none
  locked : Option Bool := none
  opacity : Option ℚ := none
  x : Option ℚ := none
  y : Option ℚ := none
  rotation : Option ℚ := none
  scale : Option ℚ := none
  width : Option (Option ℚ) := none
  height : Option (Option ℚ) := none
  src : Option (Option String) := none
  text : Option (Option String) := none
  fontSize : Option (Option ℚ) := none
  color : Option (Option String) := none
  fontFamily : Option (Option String) := none
  fontWeight : Option (Option String) := none
deriving DecidableEq, Repr

/-- The object spread `{ ...l, ...updates }`: keys present in `updates`
override those of `l`. -/
def applyPatch (l : Layer) (p : LayerPatch) : Layer :=
  { id := p.id.getD l.id
    type := p.type.getD l.type
    name := p.name.getD l.name
    visible := p.visible.getD l.visible
    locked := p.locked.getD l.locked
    opacity := p.opacity.getD l.opacity
    x := p.x.getD l.x
    y := p.y.getD l.y
    rotation := p.rotation.getD l.rotation
    scale := p.scale.getD l.scale
    width := p.width.getD l.width
    height := p.height.getD l.height
    src := p.src.getD l.src
    text := p.text.getD l.text
    fontSize := p.fontSize.getD l.fontSize
    color := p.color.getD l.color
    fontFamily := p.fontFamily.getD l.fontFamily
    fontWeight := p.fontWeight.getD l.fontWeight }

/-- Function `updateLayer` from the application component:
`layers.map(l => l.id === id ? { ...l, ...updates } : l)`. -/
def updateLayer (stack : List Layer) (id : String) (updates : LayerPatch) :
    List Layer :=
  stack.map (fun l => if l.id == id then applyPatch l updates else l)

theorem updateLayer_length (stack : List Layer) (id : String)
    (p : LayerPatch) : (updateLayer stack id p).length = stack.length := by
  simp [updateLayer]

theorem updateLayer_get? (stack : List Layer) (id : String) (p : LayerPatch)
    (i : Nat) :
    (updateLayer stack id p)[i]? =
      (stack[i]?).map (fun l => if l.id == id then applyPatch l p else l) := by
  simp [updateLayer]

theorem updateLayer_no_match (stack : List Layer) (id : String)
    (p : LayerPatch) (h : ∀ l ∈ stack, l.id ≠ id) :
    updateLayer stack id p = stack := by
  induction stack with
  | nil => rfl
  | cons a t ih =>
      have ha : a.id ≠ id := h a (List.mem_cons_self a t)
      have ht : ∀ l ∈ t, l.id ≠ id := fun l hl => h l (List.mem_cons_of_mem a hl)
      simp [updateLayer] at ih ⊢
      exact ⟨by simp [ha], ih ht⟩

/-- C8: `updateLayer` preserves length and order, merges the patch over the
matching layer, leaves non-matching layers untouched, and is the identity
when no layer carries the given id. -/
theorem C8_updateLayer_spec (stack : List Layer) (id : String)
    (p : LayerPatch) :
    (updateLayer stack id p).length = stack.length ∧
    (∀ i : Nat, ∀ l : Layer, stack[i]? = some l →
        (updateLayer stack id p)[i]? =
          some (if l.id = id then applyPatch l p else l)) ∧
    ((∀ l ∈ stack, l.id ≠ id) → updateLayer stack id p = stack) := by
  refine ⟨updateLayer_length stack id p, ?_, updateLayer_no_match stack id p⟩
  intro i l hl
  rw [updateLayer_get? stack id p i, hl]
  by_cases h : l.id = id <;> simp [h]

/-- Witness for C8 at a concrete stack. -/
def sampleLayerA : Layer :=
  { id := "a", type := .image, name := "Background", visible := true,
    locked := true, opacity := 100, x := 0, y := 0, rotation := 0,
    scale := 1, src := some "uriA" }

def sampleLayerB : Layer :=
  { id := "b", type := .text, name := "Text Layer", visible := true,
    locked := false, opacity := 100, x := 50, y := 50, rotation := 0,
    scale := 1, text := some "hello", fontSize := some 32 }

def samplePatch : LayerPatch := { x := some 7, text := some (some "bye") }

theorem C8_updateLayer_spec_witness :
    (updateLayer [sampleLayerA, sampleLayerB] "b" samplePatch).length = 2 ∧
    (updateLayer [sampleLayerA, sampleLayerB] "b" samplePatch)[1]? =
      some (applyPatch sampleLayerB samplePatch) := by
  obtain ⟨h1, h2, _⟩ := C8_updateLayer_spec [sampleLayerA, sampleLayerB] "b" samplePatch
  refine ⟨h1, ?_⟩
  have := h2 1 sampleLayerB (by decide)
  simpa using this

/-- Type `HistoryItem` from src/types.ts. -/
structure HistoryItem where
  id : String
  image : String
  layers : List Layer
  label : String
  timestamp : Nat
deriving DecidableEq, Repr

/-- The fields of the application state (`AppState` in src/types.ts) that
the layer/history engine reads or writes.  `currentHistoryIndex` starts at
`-1`, hence is an integer. -/
structure EditorState where
  layers : List Layer
  activeLayerId : Option String
  uploadedImage : Option String
  originalUploadedImage : Option String
  resultImage : Option String
  analysisResult : Option String
  errorMessage : Option String
  activeFilter : String
  editHistory : List HistoryItem
  currentHistoryIndex : Int
deriving DecidableEq, Repr

/-- Model of `JSON.parse(JSON.stringify(layers))`.  On the plain records of strings,
booleans and (finite) numbers that layers consist of, the JSON round trip
is value-preserving: absent optional keys stay absent, every other field is
reproduced.  It only matters in JavaScript because it breaks reference
sharing; on immutable values it is the identity. -/
def deepCopyLayers (layers : List Layer) : List Layer := layers

/-- Model of `Array.prototype.slice(0, e)` with a possibly negative end index. -/
def jsSliceTo (l : List HistoryItem) (e : Int) : List HistoryItem :=
  if e < 0 then l.take ((l.length : Int) + e).toNat else l.take e.toNat

/-- Function `captureHistorySnapshot` from the application component, with the
asynchronously produced composite image passed in (the body of the
`.then` callback).  If no base image is established it returns without
touching the state. -/
def captureHistorySnapshot (s : EditorState) (composite : String)
    (now : Nat) : EditorState :=
  match s.uploadedImage with
  | none => s
  | some _ =>
      let newItem : HistoryItem :=
        { id := toString now, image := composite,
          layers := deepCopyLayers s.layers, label := "Action",
          timestamp := now }
      let newHistory := jsSliceTo s.editHistory (s.currentHistoryIndex + 1) ++ [newItem]
      { s with editHistory := newHistory,
               currentHistoryIndex := (newHistory.length : Int) - 1 }

/-- Function `handleUndo`.  Reading `.layers` of an out-of-range (undefined) history
entry would throw in JavaScript; that path is the `Except.error` case. -/
def handleUndo (s : EditorState) : Except String EditorState :=
  if s.currentHistoryIndex > 0 then
    match s.editHistory[(s.currentHistoryIndex - 1).toNat]? with
    | some prevItem =>
        .ok { s with currentHistoryIndex := s.currentHistoryIndex - 1,
                     layers := deepCopyLayers prevItem.layers,
                     resultImage := none }
    | none => .error "TypeError: undefined history entry"
  else .ok s

/-- Function `handleRedo`, symmetric to `handleUndo`. -/
def handleRedo (s : EditorState) : Except String EditorState :=
  if s.currentHistoryIndex < (s.editHistory.length : Int) - 1 then
    match s.editHistory[(s.currentHistoryIndex + 1).toNat]? with
    | some nextItem =>
        .ok { s with currentHistoryIndex := s.currentHistoryIndex + 1,
                     layers := deepCopyLayers nextItem.layers,
                     resultImage := none }
    | none => .error "TypeError: undefined history entry"
  else .ok s

/-- The base layer built by `handleImageUpload`. -/
def uploadBaseLayer (dataUri : String) : Layer :=
  { id := "layer-base", type := .image, name := "Background",
    visible := true, locked := true, opacity := 100,
    src := some dataUri, x := 0, y := 0, rotation := 0, scale := 1 }

/-- Function `handleImageUpload`: establishes `dataUri` as the sole base layer and
resets the history timeline to a single snapshot (`Date.now()` passed in). -/
def handleImageUpload (s : EditorState) (dataUri : String) (now : Nat) :
    EditorState :=
  let baseLayer := uploadBaseLayer dataUri
  let initialHistory : HistoryItem :=
    { id := toString now, image := dataUri, layers := [baseLayer],
      label := "Original Upload", timestamp := now }
  { s with uploadedImage := some dataUri,
           originalUploadedImage := some dataUri,
           activeFilter := "none",
           resultImage := none,
           analysisResult := none,
           layers := [baseLayer],
           activeLayerId := some baseLayer.id,
           editHistory := [initialHistory],
           currentHistoryIndex := 0,
           errorMessage := none }

/-- The crop selection / crop rectangle `{x, y, width, height}`. -/
structure CropRect where
  x : ℚ
  y : ℚ
  width : ℚ
  height : ℚ
deriving DecidableEq, Repr

/-- The `imageDimensions` component state: displayed and natural size of
the base image element. -/
structure ImageDimensions where
  width : ℚ
  height : ℚ
  naturalWidth : ℚ
  naturalHeight : ℚ
deriving DecidableEq, Repr

/-- The `finalCrop` computation inside `applyCurrentCrop`: the selection is
scaled from displayed to natural coordinates by `natural / displayed` per
axis. -/
def finalCropOf (sel : CropRect) (dims : ImageDimensions) : CropRect :=
  let scaleX := dims.naturalWidth / dims.width
  let scaleY := dims.naturalHeight / dims.height
  { x := sel.x * scaleX, y := sel.y * scaleY,
    width := sel.width * scaleX, height := sel.height * scaleY }

/-- Function `applyCurrentCrop`.  Here `cropImage` works on an off-screen canvas; it is
passed in as `cropFn` (which may reject, e.g. on image decode failure).
Returns without touching the state when the selection, base image or
measured dimensions are missing; on success delegates to
`handleImageUpload` with the cropped image. -/
def applyCurrentCrop (s : EditorState) (cropSelection : Option CropRect)
    (imageDimensions : Option ImageDimensions)
    (cropFn : String → CropRect → Except String String) (now : Nat) :
    EditorState :=
  match cropSelection, s.uploadedImage, imageDimensions with
  | some sel, some img, some dims =>
      let finalCrop := finalCropOf sel dims
      match cropFn img finalCrop with
      | .ok cropped => handleImageUpload s cropped now
      | .error _ => { s with errorMessage := some "Failed to crop image" }
  | _, _, _ => s

/-- C1: applying a crop scales the on-screen selection by
`natural / displayed` per axis (e.g. a 10,10,50,50 selection at half
resolution becomes 20,20,100,100) and, on success, resets the composition
to a single base layer holding the cropped image and a single-snapshot
timeline with `currentHistoryIndex = 0`. -/
theorem C1_applyCrop_spec (s : EditorState) (sel : CropRect)
    (dims : ImageDimensions) (cropFn : String → CropRect → Except String String)
    (now : Nat) (img cropped : String)
    (himg : s.uploadedImage = some img)
    (hcrop : cropFn img (finalCropOf sel dims) = .ok cropped) :
    finalCropOf sel dims =
      { x := sel.x * (dims.naturalWidth / dims.width),
        y := sel.y * (dims.naturalHeight / dims.height),
        width := sel.width * (dims.naturalWidth / dims.width),
        height := sel.height * (dims.naturalHeight / dims.height) } ∧
    (applyCurrentCrop s (some sel) (some dims) cropFn now).layers =
      [uploadBaseLayer cropped] ∧
    (applyCurrentCrop s (some sel) (some dims) cropFn now).editHistory.length = 1 ∧
    (applyCurrentCrop s (some sel) (some dims) cropFn now).currentHistoryIndex = 0 ∧
    finalCropOf ⟨10, 10, 50, 50⟩ ⟨400, 300, 800, 600⟩ = ⟨20, 20, 100, 100⟩ := by
  refine ⟨rfl, ?_, ?_, ?_, by norm_num [finalCropOf]⟩ <;>
    simp [applyCurrentCrop, himg, hcrop, handleImageUpload]

/-- A reachable steady editor state: two snapshots, the live stack equal to
the snapshot at `currentHistoryIndex = 1`. -/
def histItem0 : HistoryItem :=
  { id := "0", image := "img0", layers := [sampleLayerA],
    label := "Original Upload", timestamp := 0 }

def histItem1 : HistoryItem :=
  { id := "1", image := "img1", layers := [sampleLayerA, sampleLayerB],
    label := "Action", timestamp := 1 }

def steadyState : EditorState :=
  { layers := [sampleLayerA, sampleLayerB], activeLayerId := some "b",
    uploadedImage := some "uriA", originalUploadedImage := some "uriA",
    resultImage := none, analysisResult := none, errorMessage := none,
    activeFilter := "none", editHistory := [histItem0, histItem1],
    currentHistoryIndex := 1 }

def alwaysCropFn : String → CropRect → Except String String :=
  fun _ _ => .ok "cropped-uri"

theorem C1_applyCrop_spec_witness :
    (applyCurrentCrop steadyState (some ⟨10, 10, 50, 50⟩)
        (some ⟨400, 300, 800, 600⟩) alwaysCropFn 5).layers =
      [uploadBaseLayer "cropped-uri"] ∧
    (applyCurrentCrop steadyState (some ⟨10, 10, 50, 50⟩)
        (some ⟨400, 300, 800, 600⟩) alwaysCropFn 5).editHistory.length = 1 ∧
    (applyCurrentCrop steadyState (some ⟨10, 10, 50, 50⟩)
        (some ⟨400, 300, 800, 600⟩) alwaysCropFn 5).currentHistoryIndex = 0 := by
  have h := C1_applyCrop_spec steadyState ⟨10, 10, 50, 50⟩ ⟨400, 300, 800, 600⟩
    alwaysCropFn 5 "uriA" "cropped-uri" rfl rfl
  exact ⟨h.2.1, h.2.2.1, h.2.2.2.1⟩

/-- C3: with a base image established (and the invariant
`-1 ≤ currentHistoryIndex` of the live application), capturing a snapshot
truncates the entries at indices strictly above `currentHistoryIndex`,
appends one snapshot deep-copying the live stack, points
`currentHistoryIndex` at the new last entry, and consequently redo is
unavailable afterwards. -/
theorem C3_captureSnapshot_spec (s : EditorState) (u composite : String)
    (now : Nat) (hu : s.uploadedImage = some u)
    (hidx : -1 ≤ s.currentHistoryIndex) :
    (captureHistorySnapshot s composite now).editHistory =
      s.editHistory.take (s.currentHistoryIndex + 1).toNat ++
        [{ id := toString now, image := composite,
           layers := deepCopyLayers s.layers, label := "Action",
           timestamp := now }] ∧
    (captureHistorySnapshot s composite now).currentHistoryIndex =
      ((captureHistorySnapshot s composite now).editHistory.length : Int) - 1 ∧
    handleRedo (captureHistorySnapshot s composite now) =
      .ok (captureHistorySnapshot s composite now) := by
  have he : ¬ s.currentHistoryIndex + 1 < 0 := by omega
  refine ⟨?_, ?_, ?_⟩ <;>
    simp [captureHistorySnapshot, hu, jsSliceTo, he, handleRedo]

theorem C3_captureSnapshot_spec_witness :
    (captureHistorySnapshot steadyState "img2" 7).editHistory =
      steadyState.editHistory.take 2 ++
        [{ id := "7", image := "img2",
           layers := deepCopyLayers steadyState.layers, label := "Action",
           timestamp := 7 }] ∧
    (captureHistorySnapshot steadyState "img2" 7).currentHistoryIndex =
      ((captureHistorySnapshot steadyState "img2" 7).editHistory.length : Int) - 1 ∧
    handleRedo (captureHistorySnapshot steadyState "img2" 7) =
      .ok (captureHistorySnapshot steadyState "img2" 7) :=
  C3_captureSnapshot_spec steadyState "uriA" "img2" 7 rfl (by decide)

/-- C4: on a valid non-empty timeline (`0 ≤ currentHistoryIndex < length`),
undo is a no-op at index 0 and otherwise decrements the index and installs
a deep copy of the snapshot at the new index; redo is a no-op at the last
index and otherwise increments symmetrically. -/
theorem C4_undo_redo_spec (s : EditorState)
    (h0 : 0 ≤ s.currentHistoryIndex)
    (h1 : s.currentHistoryIndex < (s.editHistory.length : Int)) :
    (s.currentHistoryIndex = 0 → handleUndo s = .ok s) ∧
    (0 < s.currentHistoryIndex → ∀ item : HistoryItem,
        s.editHistory[(s.currentHistoryIndex - 1).toNat]? = some item →
        handleUndo s =
          .ok { s with currentHistoryIndex := s.currentHistoryIndex - 1,
                       layers := deepCopyLayers item.layers,
                       resultImage := none }) ∧
    (s.currentHistoryIndex = (s.editHistory.length : Int) - 1 →
        handleRedo s = .ok s) ∧
    (s.currentHistoryIndex < (s.editHistory.length : Int) - 1 →
        ∀ item : HistoryItem,
        s.editHistory[(s.currentHistoryIndex + 1).toNat]? = some item →
        handleRedo s =
          .ok { s with currentHistoryIndex := s.currentHistoryIndex + 1,
                       layers := deepCopyLayers item.layers,
                       resultImage := none }) := by
  refine ⟨?_, ?_, ?_, ?_⟩
  · intro h
    simp [handleUndo, h]
  · intro h item hitem
    have hix : (s.currentHistoryIndex - 1).toNat = s.currentHistoryIndex.toNat - 1 := by
      omega
    rw [hix] at hitem
    simp [handleUndo, h, hitem]
  · intro h
    have : ¬ s.currentHistoryIndex < (s.editHistory.length : Int) - 1 := by omega
    simp [handleRedo, this]
  · intro h item hitem
    simp [handleRedo, h, hitem]

theorem C4_undo_redo_spec_witness :
    handleUndo steadyState =
      .ok { steadyState with currentHistoryIndex := 0,
                             layers := deepCopyLayers histItem0.layers,
                             resultImage := none } ∧
    handleRedo steadyState = .ok steadyState := by
  have h := C4_undo_redo_spec steadyState (by decide) (by decide)
  exact ⟨h.2.1 (by decide) histItem0 rfl, h.2.2.1 (by decide)⟩

/-- A reachable state whose live stack has diverged from the snapshot at
`currentHistoryIndex`: layer "b" was drag-moved to `x = 60`
(`handleMouseMove` calls `updateLayer` without capturing a snapshot). -/
def divergedState : EditorState :=
  { steadyState with
      layers := [sampleLayerA, { sampleLayerB with x := 60 }] }

def divergedAfterUndo : EditorState :=
  { divergedState with currentHistoryIndex := 0,
                       layers := histItem0.layers, resultImage := none }

def divergedAfterRedo : EditorState :=
  { divergedAfterUndo with currentHistoryIndex := 1,
                           layers := histItem1.layers, resultImage := none }

/-- C5 counterexample: in `divergedState` undo is enabled
(`currentHistoryIndex = 1 > 0`), yet undo followed by redo yields the
snapshot's layers, which differ field-for-field from the live stack held
before the undo. -/
theorem C5_counterexample :
    0 < divergedState.currentHistoryIndex ∧
    handleUndo divergedState = .ok divergedAfterUndo ∧
    handleRedo divergedAfterUndo = .ok divergedAfterRedo ∧
    divergedAfterRedo.currentHistoryIndex = divergedState.currentHistoryIndex ∧
    divergedAfterRedo.layers ≠ divergedState.layers := by
  refine ⟨by decide, rfl, rfl, rfl, by decide⟩

/-- C5 amended: when undo is enabled, undo followed by redo restores
`currentHistoryIndex` and installs a deep copy of the snapshot at the
pre-undo index — hence it yields a stack deep-equal to the pre-undo live
stack exactly when the live stack agreed with that snapshot. -/
theorem C5_undo_redo_amended (s : EditorState) (itemPrev item : HistoryItem)
    (h0 : 0 < s.currentHistoryIndex)
    (h1 : s.currentHistoryIndex < (s.editHistory.length : Int))
    (hgetPrev : s.editHistory[(s.currentHistoryIndex - 1).toNat]? = some itemPrev)
    (hget : s.editHistory[s.currentHistoryIndex.toNat]? = some item) :
    ∃ s1 s2 : EditorState,
      handleUndo s = .ok s1 ∧ handleRedo s1 = .ok s2 ∧
      s2.currentHistoryIndex = s.currentHistoryIndex ∧
      s2.layers = deepCopyLayers item.layers ∧
      (s.layers = item.layers → s2.layers = s.layers) := by
  refine ⟨{ s with currentHistoryIndex := s.currentHistoryIndex - 1,
                   layers := deepCopyLayers itemPrev.layers,
                   resultImage := none }, ?_, ?_, ?_⟩
  · exact { s with currentHistoryIndex := s.currentHistoryIndex,
                   layers := deepCopyLayers item.layers,
                   resultImage := none }
  · have hixPrev : (s.currentHistoryIndex - 1).toNat = s.currentHistoryIndex.toNat - 1 := by
      omega
    rw [hixPrev] at hgetPrev
    simp [handleUndo, h0, hgetPrev]
  · have hlt : s.currentHistoryIndex - 1 < (s.editHistory.length : Int) - 1 := by
      omega
    have hix : (s.currentHistoryIndex - 1 + 1).toNat = s.currentHistoryIndex.toNat := by
      omega
    refine ⟨?_, rfl, rfl, fun h => by simp [deepCopyLayers, h]⟩
    simp only [handleRedo]
    rw [if_pos (by simpa using hlt)]
    simp [hix, hget]

theorem C5_undo_redo_amended_witness :
    ∃ s1 s2 : EditorState,
      handleUndo steadyState = .ok s1 ∧ handleRedo s1 = .ok s2 ∧
      s2.currentHistoryIndex = steadyState.currentHistoryIndex ∧
      s2.layers = deepCopyLayers histItem1.layers ∧
      (steadyState.layers = histItem1.layers → s2.layers = steadyState.layers) :=
  C5_undo_redo_amended steadyState histItem0 histItem1 (by decide) (by decide)
    rfl rfl

/-! ## The compositor

`composeLayers` draws on an HTML canvas.  The embedding records the
sequence of canvas commands a call performs; `ctx.rotate((deg*π)/180)` is
recorded symbolically by its degree argument. -/

/-- Natural size of a decoded image (`img.width`, `img.height`). -/
structure ImgSize where
  width : ℚ
  height : ℚ
deriving DecidableEq, Repr

/-- The asset-decode environment: which `src` strings decode, and to what
natural size.  `none` models an `onerror` rejection of `loadImage`. -/
def Env : Type := String → Option ImgSize

/-- Function `loadImage`: resolves with the image element or rejects. -/
def tryLoadImage (env : Env) (src : String) : Except String ImgSize :=
  match env src with
  | some sz => .ok sz
  | none => .error "decode error"

/-- One recorded canvas command. -/
inductive CanvasOp where
  | save
  | restore
  | setAlpha (a : ℚ)
  | translate (dx dy : ℚ)
  | rotateDeg (deg : ℚ)
  | drawImage (src : String) (x y w h : ℚ)
  | setFont (weight : String) (size : ℚ) (family : String)
  | setFillStyle (c : String)
  | setTextBaselineTop
  | fillTextAt (t : String) (x y : ℚ)
  | logError (layerId : String)
deriving DecidableEq, Repr

/-- JavaScript truthiness of an optional string (`undefined` and `""` are
falsy). -/
def strTruthy : Option String → Bool
  | none => false
  | some s => s ≠ ""

/-- Semantics of `a || b` on an optional number: `undefined` and `0` fall through to
`b`. -/
def numOr (a : Option ℚ) (b : ℚ) : ℚ :=
  match a with
  | none => b
  | some v => if v = 0 then b else v

/-- Semantics of `a || b` on an optional string: `undefined` and `""` fall through to
`b`. -/
def strOr (a : Option String) (b : String) : String :=
  match a with
  | none => b
  | some v => if v = "" then b else v

/-- The commands issued between `ctx.save()` and `ctx.restore()` for one
layer of `composeLayers`: the image/drawing branch (with its try/catch
around `loadImage`) and the text branch. -/
def renderBody (env : Env) (layer : Layer) : List CanvasOp :=
  match layer.type with
  | .image | .drawing =>
      if strTruthy layer.src then
        match tryLoadImage env (layer.src.getD "") with
        | .ok img =>
            let w := numOr layer.width img.width * layer.scale
            let h := numOr layer.height img.height * layer.scale
            (if layer.rotation ≠ 0 then
              [CanvasOp.translate (layer.x + w / 2) (layer.y + h / 2),
               CanvasOp.rotateDeg layer.rotation,
               CanvasOp.translate (-(layer.x + w / 2)) (-(layer.y + h / 2))]
            else []) ++
            [CanvasOp.drawImage (layer.src.getD "") layer.x layer.y w h]
        | .error _ => [CanvasOp.logError layer.id]
      else []
  | .text =>
      if strTruthy layer.text then
        let fontSize := numOr layer.fontSize 32 * layer.scale
        [CanvasOp.setFont (strOr layer.fontWeight "normal") fontSize
           (strOr layer.fontFamily "sans-serif"),
         CanvasOp.setFillStyle (strOr layer.color "#ffffff"),
         CanvasOp.setTextBaselineTop] ++
        (if layer.rotation ≠ 0 then
          [CanvasOp.translate layer.x layer.y,
           CanvasOp.rotateDeg layer.rotation,
           CanvasOp.fillTextAt (layer.text.getD "") 0 0]
        else [CanvasOp.fillTextAt (layer.text.getD "") layer.x layer.y])
      else []

/-- One loop iteration of `composeLayers`: invisible layers are skipped
before `ctx.save()`. -/
def renderLayer (env : Env) (layer : Layer) : List CanvasOp :=
  if layer.visible then
    [CanvasOp.save, CanvasOp.setAlpha (layer.opacity / 100)] ++
      renderBody env layer ++ [CanvasOp.restore]
  else []

/-- Function `composeLayers`: the command trace of compositing the stack bottom to
top.  The function is total — a per-layer decode failure is caught inside
`renderBody` and never rejects the composite. -/
def composeLayersOps : List Layer → Env → List CanvasOp
  | [], _ => []
  | l :: ls, env => renderLayer env l ++ composeLayersOps ls env

theorem composeLayersOps_append (a b : List Layer) (env : Env) :
    composeLayersOps (a ++ b) env =
      composeLayersOps a env ++ composeLayersOps b env := by
  induction a with
  | nil => rfl
  | cons l t ih => simp [composeLayersOps, ih]

/-- An image layer with an explicit but zero `width`/`height`: JavaScript
`layer.width || img.width` ignores the explicit `0`. -/
def zeroWidthLayer : Layer :=
  { id := "z", type := .image, name := "Z", visible := true,
    locked := false, opacity := 100, x := 5, y := 5, rotation := 90,
    scale := 1, width := some 0, height := some 0, src := some "imgZ" }

/-- A decode environment: `"imgZ"` decodes to a 40 × 60 image, everything
else fails. -/
def sampleEnv : Env := fun s => if s = "imgZ" then some ⟨40, 60⟩ else none

/-- C2 counterexample: for `zeroWidthLayer` (explicit `width = 0`,
`height = 0`, rotation 90°) the claim predicts the pivot
`(x + 0·scale/2, y + 0·scale/2) = (5, 5)`, but the trace rotates about
`(25, 35)` — the centre computed from the decoded 40 × 60 natural size,
because `||` treats the explicit `0` as absent. -/
theorem C2_counterexample :
    zeroWidthLayer.width = some 0 ∧ zeroWidthLayer.rotation ≠ 0 ∧
    CanvasOp.translate 5 5 ∉ renderLayer sampleEnv zeroWidthLayer ∧
    CanvasOp.translate 25 35 ∈ renderLayer sampleEnv zeroWidthLayer := by
  have hr : renderLayer sampleEnv zeroWidthLayer =
      [CanvasOp.save, CanvasOp.setAlpha 1, CanvasOp.translate 25 35,
       CanvasOp.rotateDeg 90, CanvasOp.translate (-25) (-35),
       CanvasOp.drawImage "imgZ" 5 5 40 60, CanvasOp.restore] := by
    simp [renderLayer, renderBody, zeroWidthLayer, sampleEnv,
      tryLoadImage, numOr, strTruthy]
    norm_num
  refine ⟨rfl, by norm_num [zeroWidthLayer], ?_, ?_⟩ <;> simp [hr] <;> norm_num

/-- C2 amended: for a visible image/drawing layer whose source decodes,
with effective size `w,h` = (explicit width/height **if present and
nonzero**, else the natural size) times `scale`, a nonzero rotation pivots
about the bounding-box centre `(x + w/2, y + h/2)`; a text layer with
nonzero rotation pivots about its top-left anchor `(x, y)` itself, and
with zero rotation is drawn with its top-left anchor at `(x, y)`. -/
theorem C2_rotation_pivot_amended (env : Env) (layer : Layer) (img : ImgSize)
    (hvis : layer.visible = true) :
    ((layer.type = .image ∨ layer.type = .drawing) →
      strTruthy layer.src = true →
      env (layer.src.getD "") = some img →
      layer.rotation ≠ 0 →
      renderLayer env layer =
        [CanvasOp.save, CanvasOp.setAlpha (layer.opacity / 100),
         CanvasOp.translate
           (layer.x + numOr layer.width img.width * layer.scale / 2)
           (layer.y + numOr layer.height img.height * layer.scale / 2),
         CanvasOp.rotateDeg layer.rotation,
         CanvasOp.translate
           (-(layer.x + numOr layer.width img.width * layer.scale / 2))
           (-(layer.y + numOr layer.height img.height * layer.scale / 2)),
         CanvasOp.drawImage (layer.src.getD "") layer.x layer.y
           (numOr layer.width img.width * layer.scale)
           (numOr layer.height img.height * layer.scale),
         CanvasOp.restore]) ∧
    (layer.type = .text → strTruthy layer.text = true →
      layer.rotation ≠ 0 →
      renderLayer env layer =
        [CanvasOp.save, CanvasOp.setAlpha (layer.opacity / 100),
         CanvasOp.setFont (strOr layer.fontWeight "normal")
           (numOr layer.fontSize 32 * layer.scale)
           (strOr layer.fontFamily "sans-serif"),
         CanvasOp.setFillStyle (strOr layer.color "#ffffff"),
         CanvasOp.setTextBaselineTop,
         CanvasOp.translate layer.x layer.y,
         CanvasOp.rotateDeg layer.rotation,
         CanvasOp.fillTextAt (layer.text.getD "") 0 0,
         CanvasOp.restore]) ∧
    (layer.type = .text → strTruthy layer.text = true →
      layer.rotation = 0 →
      renderLayer env layer =
        [CanvasOp.save, CanvasOp.setAlpha (layer.opacity / 100),
         CanvasOp.setFont (strOr layer.fontWeight "normal")
           (numOr layer.fontSize 32 * layer.scale)
           (strOr layer.fontFamily "sans-serif"),
         CanvasOp.setFillStyle (strOr layer.color "#ffffff"),
         CanvasOp.setTextBaselineTop,
         CanvasOp.fillTextAt (layer.text.getD "") layer.x layer.y,
         CanvasOp.restore]) := by
  refine ⟨?_, ?_, ?_⟩
  · intro htype hsrc henv hrot
    rcases htype with h | h <;>
      simp [renderLayer, renderBody, hvis, h, hsrc, tryLoadImage, henv, hrot]
  · intro htype htext hrot
    simp [renderLayer, renderBody, hvis, htype, htext, hrot]
  · intro htype htext hrot
    simp [renderLayer, renderBody, hvis, htype, htext, hrot]

/-- A rotated image layer without explicit size. -/
def rotImageLayer : Layer :=
  { id := "r", type := .image, name := "R", visible := true,
    locked := false, opacity := 80, x := 1, y := 2, rotation := 45,
    scale := 1, src := some "imgZ" }

/-- A rotated text layer. -/
def rotTextLayer : Layer :=
  { id := "t", type := .text, name := "T", visible := true,
    locked := false, opacity := 100, x := 3, y := 4, rotation := 90,
    scale := 1, text := some "hi", fontSize := some 32 }

theorem C2_rotation_pivot_amended_witness :
    renderLayer sampleEnv rotImageLayer =
      [CanvasOp.save, CanvasOp.setAlpha (4 / 5),
       CanvasOp.translate 21 32, CanvasOp.rotateDeg 45,
       CanvasOp.translate (-21) (-32),
       CanvasOp.drawImage "imgZ" 1 2 40 60, CanvasOp.restore] ∧
    renderLayer sampleEnv rotTextLayer =
      [CanvasOp.save, CanvasOp.setAlpha 1,
       CanvasOp.setFont "normal" 32 "sans-serif",
       CanvasOp.setFillStyle "#ffffff", CanvasOp.setTextBaselineTop,
       CanvasOp.translate 3 4, CanvasOp.rotateDeg 90,
       CanvasOp.fillTextAt "hi" 0 0, CanvasOp.restore] := by
  constructor
  · have h := (C2_rotation_pivot_amended sampleEnv rotImageLayer ⟨40, 60⟩
      rfl).1 (Or.inl rfl) (by decide) rfl (by norm_num [rotImageLayer])
    rw [h]
    norm_num [rotImageLayer, numOr, strOr]
  · have h := (C2_rotation_pivot_amended sampleEnv rotTextLayer ⟨40, 60⟩
      rfl).2.1 rfl (by decide) (by norm_num [rotTextLayer])
    rw [h]
    norm_num [rotTextLayer, numOr, strOr]

/-- C6: a decode failure of one image/drawing layer is confined to it —
the trace logs the failure inside that layer's save/restore bracket, draws
nothing for it, and every other layer contributes exactly what it would
contribute anyway; the composite as a whole never fails. -/
theorem C6_decode_failure_confined (env : Env) (pre post : List Layer)
    (bad : Layer) (htype : bad.type = .image ∨ bad.type = .drawing)
    (hvis : bad.visible = true) (hsrc : strTruthy bad.src = true)
    (hfail : env (bad.src.getD "") = none) :
    composeLayersOps (pre ++ bad :: post) env =
      composeLayersOps pre env ++
        [CanvasOp.save, CanvasOp.setAlpha (bad.opacity / 100),
         CanvasOp.logError bad.id, CanvasOp.restore] ++
      composeLayersOps post env ∧
    (∀ s x y w h : _, CanvasOp.drawImage s x y w h ∉ renderLayer env bad) := by
  have hbad : renderLayer env bad =
      [CanvasOp.save, CanvasOp.setAlpha (bad.opacity / 100),
       CanvasOp.logError bad.id, CanvasOp.restore] := by
    rcases htype with h | h <;>
      simp [renderLayer, renderBody, hvis, h, hsrc, tryLoadImage, hfail]
  constructor
  · rw [composeLayersOps_append]
    rw [show composeLayersOps (bad :: post) env =
          renderLayer env bad ++ composeLayersOps post env from rfl, hbad]
    simp
  · intro s x y w h
    simp [hbad]

/-- A visible image layer whose source fails to decode under `sampleEnv`. -/
def brokenLayer : Layer :=
  { id := "broken", type := .drawing, name := "Broken", visible := true,
    locked := false, opacity := 100, x := 0, y := 0, rotation := 0,
    scale := 1, src := some "missing" }

theorem C6_decode_failure_confined_witness :
    composeLayersOps [rotImageLayer, brokenLayer, rotTextLayer] sampleEnv =
      composeLayersOps [rotImageLayer] sampleEnv ++
        [CanvasOp.save, CanvasOp.setAlpha 1,
         CanvasOp.logError "broken", CanvasOp.restore] ++
      composeLayersOps [rotTextLayer] sampleEnv ∧
    (∀ s x y w h : _,
        CanvasOp.drawImage s x y w h ∉ renderLayer sampleEnv brokenLayer) := by
  have h := C6_decode_failure_confined sampleEnv [rotImageLayer]
    [rotTextLayer] brokenLayer (Or.inr rfl) rfl (by decide) rfl
  norm_num [brokenLayer] at h
  simpa using h

/-- C10: a visible image/drawing layer with an absent or empty `src`, and a
visible text layer with an absent or empty `text`, contribute only the
empty save/alpha/restore bracket to the trace — no draw command and no
error — while every other layer contributes exactly what it would
contribute anyway. -/
theorem C10_contentless_layers_skipped (env : Env) (layer : Layer)
    (hvis : layer.visible = true) :
    ((layer.type = .image ∨ layer.type = .drawing) →
      strTruthy layer.src = false →
      renderLayer env layer =
        [CanvasOp.save, CanvasOp.setAlpha (layer.opacity / 100),
         CanvasOp.restore]) ∧
    (layer.type = .text → strTruthy layer.text = false →
      renderLayer env layer =
        [CanvasOp.save, CanvasOp.setAlpha (layer.opacity / 100),
         CanvasOp.restore]) ∧
    (∀ pre post : List Layer,
        composeLayersOps (pre ++ layer :: post) env =
          composeLayersOps pre env ++ renderLayer env layer ++
            composeLayersOps post env) := by
  refine ⟨?_, ?_, ?_⟩
  · intro htype hsrc
    rcases htype with h | h <;> simp [renderLayer, renderBody, hvis, h, hsrc]
  · intro htype htext
    simp [renderLayer, renderBody, hvis, htype, htext]
  · intro pre post
    rw [composeLayersOps_append]
    simp [composeLayersOps]

/-- A visible image layer with an empty source string. -/
def emptySrcLayer : Layer :=
  { id := "empty", type := .image, name := "Empty", visible := true,
    locked := false, opacity := 60, x := 0, y := 0, rotation := 0,
    scale := 1, src := some "" }

theorem C10_contentless_layers_skipped_witness :
    renderLayer sampleEnv emptySrcLayer =
      [CanvasOp.save, CanvasOp.setAlpha (3 / 5), CanvasOp.restore] ∧
    composeLayersOps [rotImageLayer, emptySrcLayer] sampleEnv =
      composeLayersOps [rotImageLayer] sampleEnv ++
        renderLayer sampleEnv emptySrcLayer ++ composeLayersOps [] sampleEnv := by
  have h := C10_contentless_layers_skipped sampleEnv emptySrcLayer rfl
  refine ⟨?_, h.2.2 [rotImageLayer] []⟩
  have := h.1 (Or.inl rfl) (by decide)
  rw [this]
  norm_num [emptySrcLayer]

/-! ## Layer reorder

`handleReorderLayer` validates only the destination index and then uses
`Array.prototype.splice` twice.  Splice clamps its start index: a negative
start counts back from the end (clamped to 0), a too-large start is
clamped to the length.  Removing past the end removes nothing, so the
destructured `moved` can be `undefined` — the stack after the second
splice is therefore a list of possibly-undefined entries. -/

/-- The effective start index of `splice(i, ...)` on an array of length
`len`. -/
def spliceStart (i : Int) (len : Nat) : Nat :=
  if i < 0 then ((len : Int) + i).toNat else min i.toNat len

/-- Remove the element at index `n` (nothing happens past the end):
`splice(n, 1)` with a pre-clamped start. -/
def removeAt {α : Type} : List α → Nat → List α
  | [], _ => []
  | _ :: xs, 0 => xs
  | x :: xs, n + 1 => x :: removeAt xs n

/-- Insert `x` at index `n`: `splice(n, 0, x)` with a pre-clamped start. -/
def insertAt {α : Type} : List α → Nat → α → List α
  | l, 0, x => x :: l
  | [], _ + 1, x => [x]
  | y :: l, n + 1, x => y :: insertAt l n x

theorem removeAt_length {α : Type} (l : List α) (n : Nat)
    (h : n < l.length) : (removeAt l n).length = l.length - 1 := by
  induction l generalizing n with
  | nil => simp at h
  | cons a t ih =>
      cases n with
      | zero => simp [removeAt]
      | succ m =>
          simp only [removeAt, List.length_cons]
          rw [ih m (by simpa using h)]
          have : 1 ≤ t.length := by
            have := h
            simp at this
            omega
          omega

theorem removeAt_of_length_le {α : Type} (l : List α) (n : Nat)
    (h : l.length ≤ n) : removeAt l n = l := by
  induction l generalizing n with
  | nil => cases n <;> rfl
  | cons a t ih =>
      cases n with
      | zero => simp at h
      | succ m =>
          simp only [removeAt]
          rw [ih m (by simpa using h)]

theorem insertAt_length {α : Type} (l : List α) (n : Nat) (x : α) :
    (insertAt l n x).length = l.length + 1 := by
  induction l generalizing n with
  | nil => cases n <;> rfl
  | cons a t ih =>
      cases n with
      | zero => rfl
      | succ m => simp [insertAt, ih]

theorem getElem?_insertAt_self {α : Type} (l : List α) (n : Nat) (x : α)
    (h : n ≤ l.length) : (insertAt l n x)[n]? = some x := by
  induction l generalizing n with
  | nil =>
      have hn : n = 0 := by simpa using h
      subst hn
      rfl
  | cons a t ih =>
      cases n with
      | zero => rfl
      | succ m =>
          simp only [insertAt, List.getElem?_cons_succ]
          exact ih m (by simpa using h)

theorem removeAt_insertAt {α : Type} (l : List α) (n : Nat) (x : α)
    (h : n ≤ l.length) : removeAt (insertAt l n x) n = l := by
  induction l generalizing n with
  | nil =>
      have hn : n = 0 := by simpa using h
      subst hn
      rfl
  | cons a t ih =>
      cases n with
      | zero => rfl
      | succ m =>
          simp only [insertAt, removeAt]
          rw [ih m (by simpa using h)]

/-- Function `handleReorderLayer`: destination out of `[0, length-1]` returns
without mutating; otherwise `[moved] = newLayers.splice(fromIndex, 1)`
followed by `newLayers.splice(toIndex, 0, moved)`. -/
def handleReorderLayer (stack : List Layer) (fromIndex toIndex : Int) :
    List (Option Layer) :=
  if toIndex < 0 ∨ (stack.length : Int) ≤ toIndex then stack.map some
  else
    insertAt
      (removeAt (stack.map some) (spliceStart fromIndex (stack.map some).length))
      (spliceStart toIndex
        (removeAt (stack.map some)
          (spliceStart fromIndex (stack.map some).length)).length)
      (((stack.map some)[spliceStart fromIndex (stack.map some).length]?).join)

/-- C7: reordering with a destination outside `[0, length-1]` returns the
stack unchanged with no error; with both indices in range it removes the
element at `fromIndex` and reinserts it at `toIndex` with splice
semantics, preserving the relative order of all other elements (deleting
the moved element from its new position recovers exactly the stack minus
the moved element). -/
theorem C7_reorder_spec (stack : List Layer) (fromIndex toIndex : Int) :
    ((toIndex < 0 ∨ (stack.length : Int) ≤ toIndex) →
      handleReorderLayer stack fromIndex toIndex = stack.map some) ∧
    (0 ≤ fromIndex → fromIndex < (stack.length : Int) →
     0 ≤ toIndex → toIndex < (stack.length : Int) →
      handleReorderLayer stack fromIndex toIndex =
        insertAt (removeAt (stack.map some) fromIndex.toNat) toIndex.toNat
          (stack[fromIndex.toNat]?) ∧
      removeAt (handleReorderLayer stack fromIndex toIndex) toIndex.toNat =
        removeAt (stack.map some) fromIndex.toNat) := by
  constructor
  · intro h
    simp only [handleReorderLayer]
    rw [if_pos h]
  · intro hf0 hf1 ht0 ht1
    have hlenmap : (stack.map some).length = stack.length := by simp
    have hfN : fromIndex.toNat < stack.length := by omega
    have hs : spliceStart fromIndex (stack.map some).length = fromIndex.toNat := by
      simp only [spliceStart, hlenmap]
      rw [if_neg (by omega)]
      exact Nat.min_eq_left (by omega)
    have hmoved : ((stack.map some)[fromIndex.toNat]?).join = stack[fromIndex.toNat]? := by
      rcases hx : stack[fromIndex.toNat]? with _ | l <;> simp [hx]
    have hrest : (removeAt (stack.map some) fromIndex.toNat).length = stack.length - 1 :=
      by rw [removeAt_length _ _ (by omega)]; omega
    have ht : spliceStart toIndex (removeAt (stack.map some) fromIndex.toNat).length =
        toIndex.toNat := by
      simp only [spliceStart, hrest]
      rw [if_neg (by omega)]
      exact Nat.min_eq_left (by omega)
    have hmain : handleReorderLayer stack fromIndex toIndex =
        insertAt (removeAt (stack.map some) fromIndex.toNat) toIndex.toNat
          (stack[fromIndex.toNat]?) := by
      simp only [handleReorderLayer]
      rw [if_neg (by omega), hs, ht, hmoved]
    refine ⟨hmain, ?_⟩
    rw [hmain, removeAt_insertAt _ _ _ (by omega)]

theorem C7_reorder_spec_witness :
    handleReorderLayer [sampleLayerA, sampleLayerB] 5 (-1) =
      [sampleLayerA, sampleLayerB].map some ∧
    handleReorderLayer [sampleLayerA, sampleLayerB] 0 1 =
      insertAt (removeAt ([sampleLayerA, sampleLayerB].map some) 0) 1
        ([sampleLayerA, sampleLayerB][0]?) ∧
    handleReorderLayer [sampleLayerA, sampleLayerB] 0 1 =
      [some sampleLayerB, some sampleLayerA] := by
  have h1 := (C7_reorder_spec [sampleLayerA, sampleLayerB] 5 (-1)).1 (by decide)
  have h2 := (C7_reorder_spec [sampleLayerA, sampleLayerB] 0 1).2
    (by decide) (by decide) (by decide) (by decide)
  exact ⟨h1, h2.1, by rw [h2.1]; rfl⟩

/-- C9: only the destination index is validated.  For an in-range
`toIndex`, a `fromIndex ≥ length` removes nothing and inserts an
`undefined` entry at `toIndex` (the stack grows by one and holds a
non-layer entry), and a negative `fromIndex` in `[-length, 0)` moves the
element counted from the end of the stack instead. -/
theorem C9_reorder_source_unvalidated (stack : List Layer)
    (fromIndex toIndex : Int) (ht0 : 0 ≤ toIndex)
    (ht1 : toIndex < (stack.length : Int)) :
    ((stack.length : Int) ≤ fromIndex →
      handleReorderLayer stack fromIndex toIndex =
        insertAt (stack.map some) toIndex.toNat none ∧
      (handleReorderLayer stack fromIndex toIndex).length = stack.length + 1 ∧
      (handleReorderLayer stack fromIndex toIndex)[toIndex.toNat]? = some none ∧
      handleReorderLayer stack fromIndex toIndex ≠ stack.map some) ∧
    (fromIndex < 0 → -(stack.length : Int) ≤ fromIndex →
      handleReorderLayer stack fromIndex toIndex =
        insertAt
          (removeAt (stack.map some) ((stack.length : Int) + fromIndex).toNat)
          toIndex.toNat
          (stack[((stack.length : Int) + fromIndex).toNat]?)) := by
  have hlenmap : (stack.map some).length = stack.length := by simp
  constructor
  · intro hf
    have hs : spliceStart fromIndex (stack.map some).length = stack.length := by
      simp only [spliceStart, hlenmap]
      rw [if_neg (by omega)]
      exact Nat.min_eq_right (by omega)
    have hrm : removeAt (stack.map some) stack.length = stack.map some :=
      removeAt_of_length_le _ _ (by omega)
    have hmoved : ((stack.map some)[stack.length]?).join = (none : Option Layer) := by
      have : (stack.map some)[stack.length]? = none := by
        rw [List.getElem?_eq_none]
        omega
      simp [this]
    have ht : spliceStart toIndex (stack.map some).length = toIndex.toNat := by
      simp only [spliceStart, hlenmap]
      rw [if_neg (by omega)]
      exact Nat.min_eq_left (by omega)
    have hmain : handleReorderLayer stack fromIndex toIndex =
        insertAt (stack.map some) toIndex.toNat none := by
      simp only [handleReorderLayer]
      rw [if_neg (by omega), hs, hrm, ht, hmoved]
    refine ⟨hmain, ?_, ?_, ?_⟩
    · rw [hmain, insertAt_length, hlenmap]
    · rw [hmain, getElem?_insertAt_self _ _ _ (by omega)]
    · intro hcontra
      have := congrArg List.length hcontra
      rw [hmain, insertAt_length, hlenmap] at this
      simp at this
  · intro hf0 hf1
    have hk : ((stack.length : Int) + fromIndex).toNat < stack.length := by omega
    have hs : spliceStart fromIndex (stack.map some).length =
        ((stack.length : Int) + fromIndex).toNat := by
      simp only [spliceStart, hlenmap]
      rw [if_pos (by omega)]
    have hmoved : ((stack.map some)[((stack.length : Int) + fromIndex).toNat]?).join =
        stack[((stack.length : Int) + fromIndex).toNat]? := by
      rcases hx : stack[((stack.length : Int) + fromIndex).toNat]? with _ | l <;> simp [hx]
    have hrest : (removeAt (stack.map some) ((stack.length : Int) + fromIndex).toNat).length =
        stack.length - 1 := by
      rw [removeAt_length _ _ (by omega)]
      omega
    have ht : spliceStart toIndex
        (removeAt (stack.map some) ((stack.length : Int) + fromIndex).toNat).length =
        toIndex.toNat := by
      simp only [spliceStart, hrest]
      rw [if_neg (by omega)]
      exact Nat.min_eq_left (by omega)
    simp only [handleReorderLayer]
    rw [if_neg (by omega), hs, ht, hmoved]

theorem C9_reorder_source_unvalidated_witness :
    handleReorderLayer [sampleLayerA, sampleLayerB] 5 1 =
      insertAt ([sampleLayerA, sampleLayerB].map some) 1 none ∧
    (handleReorderLayer [sampleLayerA, sampleLayerB] 5 1).length = 3 ∧
    (handleReorderLayer [sampleLayerA, sampleLayerB] 5 1)[1]? = some none ∧
    handleReorderLayer [sampleLayerA, sampleLayerB] 5 1 ≠
      [sampleLayerA, sampleLayerB].map some ∧
    handleReorderLayer [sampleLayerA, sampleLayerB] (-2) 1 =
      insertAt (removeAt ([sampleLayerA, sampleLayerB].map some) 0) 1
        ([sampleLayerA, sampleLayerB][0]?) := by
  have h := C9_reorder_source_unvalidated [sampleLayerA, sampleLayerB] 5 1
    (by decide) (by decide)
  have h1 := h.1 (by decide)
  have h2 := C9_reorder_source_unvalidated [sampleLayerA, sampleLayerB] (-2) 1
    (by decide) (by decide)
  refine ⟨h1.1, h1.2.1, h1.2.2.1, h1.2.2.2, ?_⟩
  have := h2.2 (by decide) (by decide)
  simpa using this
